import Mathlib

/-!
Shallow embedding of the real-time CRM synchronization engine
(ConflictResolver, offline operation queue, reconnection manager,
document-name validation, deal CRUD error routing) together with proofs
of the specification's claims about it.

JavaScript objects are modelled as association lists from field names to
values in insertion order; property assignment replaces the value of an
existing key in place and appends a fresh key at the end, matching the
semantics of `obj[k] = v` on plain objects with own properties.
-/

/-- A JavaScript value as far as the engine inspects one: strings,
numbers, booleans, and `undefined`. -/
inductive Value
  | str (s : String)
  | num (n : Int)
  | boolean (b : Bool)
  | undef
deriving DecidableEq, Repr

/-- A JavaScript object: fields in insertion order, keys unique. -/
abbrev Obj := List (String × Value)

/-- Lookup of an own property (`obj[k]`, first binding wins). -/
def alistGet {α : Type} (k : String) : List (String × α) → Option α
  | [] => none
  | (k0, v0) :: rest => if k0 = k then some v0 else alistGet k rest

/-- The `k in obj` test restricted to own properties. -/
def alistMem {α : Type} (k : String) (l : List (String × α)) : Bool :=
  (alistGet k l).isSome

/-- Property assignment `obj[k] = v`: replace in place or append. -/
def alistSet {α : Type} (k : String) (v : α) : List (String × α) → List (String × α)
  | [] => [(k, v)]
  | (k0, v0) :: rest => if k0 = k then (k, v) :: rest else (k0, v0) :: alistSet k v rest

/-- `Map.delete(k)`: remove the binding for `k`. -/
def alistRemove {α : Type} (k : String) (l : List (String × α)) : List (String × α) :=
  l.filter (fun p => !(p.1 = k : Bool))

/-- JavaScript object spread `\x7b ...base, ...extra \x7d`: assign every
field of `extra` onto `base` in order. -/
def objAssign (base extra : Obj) : Obj :=
  extra.foldl (fun acc kv => alistSet kv.1 kv.2 acc) base

/-- The keys of an object are pairwise distinct (true of every value a
JavaScript object literal or spread can produce). -/
def keysNodup {α : Type} (l : List (String × α)) : Prop :=
  (l.map Prod.fst).Nodup

instance {α : Type} (l : List (String × α)) : Decidable (keysNodup l) := by
  unfold keysNodup; infer_instance

/-- `key.startsWith('_')` as used by the merge strategy. -/
def startsWithUnderscore (k : String) : Bool :=
  match k.data with
  | [] => false
  | c :: _ => c = '_'

-- ============================================================
-- ConflictResolver (part_004):
--   resolve(local, remote, strategy) dispatches on the strategy name,
--   throwing on an unknown strategy; merge spreads remote and then adds
--   the local fields that are absent from remote and do not start with
--   an underscore; prompt falls back to merge.
-- ============================================================

/-- Result of `ConflictResolver.resolve`: the resolved object and the
`source` tag. -/
structure ResolveResult where
  resolved : Obj
  source : String
deriving DecidableEq, Repr

namespace ConflictResolver

/-- `clientWins(local, remote)`. -/
def clientWins (localObj remote : Obj) : ResolveResult :=
  ⟨localObj, "client"⟩

/-- `serverWins(local, remote)`. -/
def serverWins (localObj remote : Obj) : ResolveResult :=
  ⟨remote, "server"⟩

/-- The body of the `merge` loop: copy `kv` onto the accumulator when
`!(key in remote) && !key.startsWith('_')`. -/
def mergeStep (remote acc : Obj) (kv : String × Value) : Obj :=
  if !(alistMem kv.1 remote) && !(startsWithUnderscore kv.1) then
    alistSet kv.1 kv.2 acc
  else acc

/-- `merge(local, remote)`: spread remote, then copy each `[key, value]`
of local for which `!(key in remote) && !key.startsWith('_')`. -/
def merge (localObj remote : Obj) : ResolveResult :=
  ⟨localObj.foldl (mergeStep remote) remote, "merged"⟩

/-- `prompt(local, remote)`: the source has no UI wiring and falls back
to the merge strategy. -/
def prompt (localObj remote : Obj) : ResolveResult :=
  merge localObj remote

/-- `resolve(local, remote, strategy)`: dispatch through the strategies
table; an unknown strategy name throws. -/
def resolve (localObj remote : Obj) (strategy : String) : Except String ResolveResult :=
  if strategy = "client-wins" then .ok (clientWins localObj remote)
  else if strategy = "server-wins" then .ok (serverWins localObj remote)
  else if strategy = "merge" then .ok (merge localObj remote)
  else if strategy = "prompt" then .ok (prompt localObj remote)
  else .error ("Unknown conflict resolution strategy: " ++ strategy)

end ConflictResolver

/-- Modelled from the spec: the resolved value the specification's words
describe for the merge strategy — remote with every field present in
`local` but absent in `remote` added, with no further filtering. Kept
separate from `ConflictResolver.merge` for comparison. -/
def specMergeResolved (localObj remote : Obj) : Obj :=
  localObj.foldl
    (fun acc kv => if alistMem kv.1 remote then acc else alistSet kv.1 kv.2 acc)
    remote

-- ============================================================
-- APIManager offline queue (part_004):
--   queueOfflineOperation builds items with retries = 0;
--   processOfflineQueue walks the queue in FIFO order, attempting each
--   item, removing it on success, incrementing retries on failure and
--   dropping the item (with a logged error) once retries reaches
--   retryConfig.attempts (3); the payloads are replayed unchanged.
-- ============================================================

/-- Kind of a queued mutation (the `operation` field). -/
inductive OpKind
  | create
  | update
  | delete
deriving DecidableEq, Repr

/-- One entry of `this.offlineQueue` as built by
`queueOfflineOperation`. -/
structure QueueItem where
  id : String
  operation : OpKind
  entityType : String
  data : Obj
  timestamp : Nat
  retries : Nat
deriving DecidableEq, Repr

/-- `retryConfig.attempts` from the APIManager constructor. -/
def retryAttempts : Nat := 3

/-- Observable outcome of one `processOfflineQueue` pass: the queue that
remains, the attempts made against the record store in order (operation,
entity type, payload), and the items dropped after exhausting their
retries (each logged as an error). -/
structure DrainResult where
  remaining : List QueueItem
  attempts : List (OpKind × String × Obj)
  dropped : List QueueItem
deriving DecidableEq, Repr

/-- The FIFO loop of `processOfflineQueue` restricted to runs in which
every replay attempt either succeeds or throws (`applyFn item = true`
models a successful replay of the item via `processOfflineItem`).
Successful items are removed, failed items have `retries` incremented
and are kept unless `retries` reaches `retryAttempts`, in which case
they are dropped. The loop's third outcome — a network-classified
failure that resolves after re-enqueuing a fresh copy onto the live
array — is modelled in full by `passStep`/`runPass` below. -/
def drainQueue (applyFn : QueueItem → Bool) : List QueueItem → DrainResult
  | [] => ⟨[], [], []⟩
  | item :: rest =>
    let r := drainQueue applyFn rest
    if applyFn item then
      ⟨r.remaining, (item.operation, item.entityType, item.data) :: r.attempts, r.dropped⟩
    else
      let item2 := { item with retries := item.retries + 1 }
      if retryAttempts ≤ item2.retries then
        ⟨r.remaining, (item.operation, item.entityType, item.data) :: r.attempts,
         item2 :: r.dropped⟩
      else
        ⟨item2 :: r.remaining, (item.operation, item.entityType, item.data) :: r.attempts,
         r.dropped⟩

/-- `processOfflineQueue`: a no-op unless connected and the queue is
non-empty, otherwise one FIFO drain pass. -/
def processOfflineQueue (isConnected : Bool) (applyFn : QueueItem → Bool)
    (queue : List QueueItem) : DrainResult :=
  if !isConnected || queue.isEmpty then ⟨queue, [], []⟩
  else drainQueue applyFn queue

-- ============================================================
-- The full replay loop of processOfflineQueue (part_004):
--   `for (const item of this.offlineQueue)` iterates the live array by
--   index, so items appended mid-pass are visited too. Each
--   processOfflineItem call has three outcomes: it resolves with a real
--   success; it resolves although the store was unreachable, because
--   the CRUD wrapper caught an error passing isNetworkError (for
--   updateDeal/deleteDeal even a failed getDeal pre-read, whose
--   APIError message 'Failed to fetch deal: ...' always contains
--   'fetch') and called queueOfflineOperation, appending a fresh copy
--   of the operation with retries 0 to the same live offlineQueue
--   before returning an optimistic value; or it rejects, in which case
--   the catch block increments retries and applies the ceiling. At the
--   end processedItems are filtered out by id. Since the loop need not
--   terminate (a persistently failing store makes each visited copy
--   append another), the model is totalized by a fuel argument
--   counting loop iterations.
-- ============================================================

/-- Outcome of one `processOfflineItem` call as seen by the loop. -/
inductive ReplayOutcome
  | success
  | requeued
  | thrown
deriving DecidableEq, Repr

/-- The loop state: the live `offlineQueue` array, the iterator index,
the `processedItems` ids, the dropped items (each logged as an error),
the attempts made in order, and the clock feeding `generateId`. -/
structure PassState where
  arr : List QueueItem
  idx : Nat
  processed : List String
  dropped : List QueueItem
  attempts : List (OpKind × String × Obj)
  now : Nat
deriving DecidableEq, Repr

/-- One iteration of the `for ... of` loop at the current index. On
`requeued`, the fresh copy appended by `queueOfflineOperation` carries
the same operation, entity type and payload (items built by
`queueOfflineOperation` have `id` as their first payload key, so the
`{ id, ...data }` rebuild reproduces the payload), a new id and
timestamp, and `retries := 0`; the original is still pushed to
`processedItems` because the wrapper resolved. On `thrown`, the array
element is mutated in place (`item.retries++`) and dropped once the
count reaches `retryAttempts`. -/
def passStep (applyFn : QueueItem → ReplayOutcome) (s : PassState) : PassState :=
  match s.arr[s.idx]? with
  | none => s
  | some item =>
    match applyFn item with
    | ReplayOutcome.success =>
      { s with
        idx := s.idx + 1
        processed := s.processed ++ [item.id]
        attempts := s.attempts ++ [(item.operation, item.entityType, item.data)] }
    | ReplayOutcome.requeued =>
      { s with
        idx := s.idx + 1
        processed := s.processed ++ [item.id]
        attempts := s.attempts ++ [(item.operation, item.entityType, item.data)]
        arr := s.arr ++
          [{ item with id := "queue_" ++ toString s.now, timestamp := s.now, retries := 0 }]
        now := s.now + 1 }
    | ReplayOutcome.thrown =>
      let item2 := { item with retries := item.retries + 1 }
      if retryAttempts ≤ item2.retries then
        { s with
          idx := s.idx + 1
          arr := s.arr.set s.idx item2
          processed := s.processed ++ [item.id]
          dropped := s.dropped ++ [item2]
          attempts := s.attempts ++ [(item.operation, item.entityType, item.data)] }
      else
        { s with
          idx := s.idx + 1
          arr := s.arr.set s.idx item2
          attempts := s.attempts ++ [(item.operation, item.entityType, item.data)] }

/-- Run the loop for up to `fuel` iterations; it stops early only when
the iterator has passed the end of the live array. -/
def runPass (applyFn : QueueItem → ReplayOutcome) : Nat → PassState → PassState
  | 0, s => s
  | n + 1, s =>
    if s.idx < s.arr.length then runPass applyFn n (passStep applyFn s) else s

/-- The loop state at entry of a `processOfflineQueue` pass. -/
def initPass (queue : List QueueItem) (now : Nat) : PassState :=
  ⟨queue, 0, [], [], [], now⟩

/-- The final `offlineQueue = offlineQueue.filter(item =>
!processedItems.includes(item.id))` of the pass. -/
def passRemaining (s : PassState) : List QueueItem :=
  s.arr.filter (fun it => !(s.processed.contains it.id))

-- ============================================================
-- APIManager deal CRUD error routing (part_004):
--   makeRequest never rejects: its catch block returns
--   (ok: false, error: error.message, status: error.status || 0).
--   createDeal / updateDeal / deleteDeal wrap a failed response in an
--   APIError named 'APIError' with message 'Failed to ... deal: ' ++
--   response.error; their catch blocks queue the operation and return an
--   optimistic value when isNetworkError(error) holds and rethrow
--   otherwise. isNetworkError checks the error name against 'TypeError'
--   and 'NetworkError' and the message for the substrings 'fetch' and
--   'network'. (makeRequest additionally records raw failed requests via
--   handleOfflineRequest for recognized network errors; that side list
--   is not consulted by the claims and is not modelled.)
-- ============================================================

/-- `sub` occurs as a contiguous run at the head of `l`. -/
def isPrefixList : List Char → List Char → Bool
  | [], _ => true
  | _ :: _, [] => false
  | a :: as, b :: bs => a = b && isPrefixList as bs

/-- `String.prototype.includes`: `sub` occurs contiguously in `s`. -/
def hasSubstr (sub : List Char) : List Char → Bool
  | [] => sub.isEmpty
  | c :: cs => isPrefixList sub (c :: cs) || hasSubstr sub cs

/-- A thrown JavaScript error as the engine inspects one: `name`,
`message`, and `status` (0 models a missing status, matching
`error.status || 0`). -/
structure JsError where
  name : String
  message : String
  status : Nat
deriving DecidableEq, Repr

/-- `isNetworkError(error)` from the APIManager. -/
def isNetworkError (e : JsError) : Bool :=
  e.name = "TypeError" || e.name = "NetworkError" ||
    hasSubstr "fetch".data e.message.data || hasSubstr "network".data e.message.data

/-- The value `makeRequest` resolves with: `ok`, `data` on success,
`error` message and `status` on failure. -/
structure ApiResponse where
  ok : Bool
  data : Obj
  error : String
  status : Nat
deriving DecidableEq, Repr

/-- `tables.deals.fields`: CRM field name → NocoDB column name. -/
def dealFields : List (String × String) :=
  [("id", "Id"), ("title", "Title"), ("amount", "Amount"), ("status", "Status"),
   ("company", "Company"), ("contact", "Contact"), ("notes", "Notes"),
   ("priority", "Priority"), ("stage", "Stage"), ("probability", "Probability"),
   ("expected_close_date", "ExpectedCloseDate"), ("created_at", "CreatedAt"),
   ("updated_at", "UpdatedAt")]

/-- `transformDealFromAPI(apiData)`: rebuild the deal object field by
field from the NocoDB columns (a missing column reads as undefined). -/
def transformDealFromAPI (apiData : Obj) : Obj :=
  dealFields.map (fun kv => (kv.1, (alistGet kv.2 apiData).getD Value.undef))

/-- `queueOfflineOperation(operation, entityType, data)`: the queued
item; `generateId` is modelled by its deterministic prefix and
timestamp (the random suffix only serves uniqueness). -/
def queueOfflineOperation (operation : OpKind) (entityType : String) (data : Obj)
    (now : Nat) : QueueItem :=
  ⟨"queue_" ++ toString now, operation, entityType, data, now, 0⟩

/-- `createDeal(dealData)` after validation, as a function of the
`makeRequest` response: on success the transformed deal; on failure the
thrown APIError is caught, and if it passes `isNetworkError` the
operation is queued and the optimistic local value
`\x7b ...dealData, id: 'offline_' + Date.now(), _offline: true \x7d` is
returned, otherwise the APIError propagates to the caller. -/
def createDeal (dealData : Obj) (resp : ApiResponse) (queue : List QueueItem)
    (now : Nat) : Except JsError Obj × List QueueItem :=
  if resp.ok then
    (Except.ok (transformDealFromAPI resp.data), queue)
  else
    let err : JsError := ⟨"APIError", "Failed to create deal: " ++ resp.error, resp.status⟩
    if isNetworkError err then
      (Except.ok (objAssign dealData
          [("id", Value.str ("offline_" ++ toString now)), ("_offline", Value.boolean true)]),
       queue ++ [queueOfflineOperation OpKind.create "deals" dealData now])
    else
      (Except.error err, queue)

/-- `updateDeal(id, dealData)` after validation and the `getDeal` read,
as a function of the `makeRequest` response: success returns the
transformed deal; a 409 is routed to `handleUpdateConflict` (its outcome
passed in as `conflictResult`); any other failure is wrapped in an
APIError and either queued with payload `\x7b id, ...dealData \x7d` and
answered optimistically, or rethrown. -/
def updateDeal (id : String) (dealData : Obj) (resp : ApiResponse)
    (conflictResult : Except JsError Obj) (queue : List QueueItem) (now : Nat) :
    Except JsError Obj × List QueueItem :=
  if resp.ok then
    (Except.ok (transformDealFromAPI resp.data), queue)
  else if resp.status = 409 then
    (conflictResult, queue)
  else
    let err : JsError := ⟨"APIError", "Failed to update deal: " ++ resp.error, resp.status⟩
    if isNetworkError err then
      (Except.ok (objAssign dealData
          [("id", Value.str id), ("_offline", Value.boolean true)]),
       queue ++ [queueOfflineOperation OpKind.update "deals"
          (objAssign [("id", Value.str id)] dealData) now])
    else
      (Except.error err, queue)

/-- `deleteDeal(id)` after the `getDeal` read, as a function of the
`makeRequest` response: success (and the queued network-failure path)
return `true`; other failures rethrow the wrapping APIError. -/
def deleteDeal (id : String) (resp : ApiResponse) (queue : List QueueItem)
    (now : Nat) : Except JsError Bool × List QueueItem :=
  if resp.ok then
    (Except.ok true, queue)
  else
    let err : JsError := ⟨"APIError", "Failed to delete deal: " ++ resp.error, resp.status⟩
    if isNetworkError err then
      (Except.ok true,
       queue ++ [queueOfflineOperation OpKind.delete "deals" [("id", Value.str id)] now])
    else
      (Except.error err, queue)

-- ============================================================
-- CRMRealtimeManager connection management (src/ui/js/notes.js):
--   scheduleReconnection emits reconnectionFailed and returns once
--   reconnectAttempts has reached config.maxReconnectAttempts, and
--   otherwise stores a timeout with delay
--   min(config.reconnectDelay * 2 ^ reconnectAttempts, 30000);
--   handleProviderConnect resets reconnectAttempts to 0 and cancels the
--   pending timeout for the deal.
-- ============================================================

/-- The manager configuration fields the connection logic reads
(defaults 1000 ms and 10 attempts). -/
structure RTConfig where
  reconnectDelay : Nat := 1000
  maxReconnectAttempts : Nat := 10
deriving DecidableEq, Repr

/-- Events the connection logic emits. -/
inductive RTEvent
  | connected (dealId : String)
  | reconnectionFailed (dealId : String)
deriving DecidableEq, Repr

/-- The connection state the reconnection logic touches: the attempt
counter and the pending reconnection timeouts (dealId → delay in ms). -/
structure RTState where
  reconnectAttempts : Nat
  reconnectTimeouts : List (String × Nat)
deriving DecidableEq, Repr

/-- The delay expression of `scheduleReconnection`:
`Math.min(reconnectDelay * Math.pow(2, reconnectAttempts), 30000)`. -/
def backoffDelay (cfg : RTConfig) (attempt : Nat) : Nat :=
  min (cfg.reconnectDelay * 2 ^ attempt) 30000

/-- `scheduleReconnection(dealId)`: once the attempt counter has reached
the maximum, emit `reconnectionFailed` and schedule nothing; otherwise
store a timeout for the deal with the backoff delay. -/
def scheduleReconnection (cfg : RTConfig) (s : RTState) (dealId : String) :
    RTState × List RTEvent :=
  if cfg.maxReconnectAttempts ≤ s.reconnectAttempts then
    (s, [RTEvent.reconnectionFailed dealId])
  else
    ({ s with reconnectTimeouts :=
        alistSet dealId (backoffDelay cfg s.reconnectAttempts) s.reconnectTimeouts },
     [])

/-- `cancelReconnection(dealId)`: clear and forget the pending timeout. -/
def cancelReconnection (s : RTState) (dealId : String) : RTState :=
  { s with reconnectTimeouts := alistRemove dealId s.reconnectTimeouts }

/-- `handleProviderConnect(dealId)`: reset the attempt counter to zero,
cancel the pending reconnection, and emit `connected`. -/
def handleProviderConnect (s : RTState) (dealId : String) : RTState × List RTEvent :=
  (cancelReconnection { s with reconnectAttempts := 0 } dealId,
   [RTEvent.connected dealId])

-- ============================================================
-- CRMRealtimeManager.joinDeal (src/ui/js/notes.js):
--   if this.documents already has the dealId the existing Y.Doc is
--   returned unchanged; otherwise a Y.Doc named
--   `namespace + ':deal:' + dealId` is created and the documents,
--   providers, persistence and awareness maps all gain an entry.
-- ============================================================

/-- The observable identity of a Y.Doc: the document name it was wired
to. -/
structure YDocModel where
  docName : String
deriving DecidableEq, Repr

/-- The four per-deal maps `joinDeal` populates (providers, persistence
and awareness entries carry the document name they were created for). -/
structure ManagerState where
  documents : List (String × YDocModel)
  providers : List (String × String)
  persistence : List (String × String)
  awareness : List (String × String)
deriving DecidableEq, Repr

/-- `joinDeal(dealId)`: early return of the existing doc when already
joined, otherwise create the doc, provider, persistence and awareness
entries under `namespace + ':deal:' + dealId`. -/
def joinDeal (ns : String) (s : ManagerState) (dealId : String) :
    ManagerState × YDocModel :=
  match alistGet dealId s.documents with
  | some doc => (s, doc)
  | none =>
    let name := ns ++ ":deal:" ++ dealId
    let doc : YDocModel := ⟨name⟩
    ({ documents := alistSet dealId doc s.documents,
       providers := alistSet dealId name s.providers,
       persistence := alistSet dealId name s.persistence,
       awareness := alistSet dealId name s.awareness }, doc)

-- ============================================================
-- CRMRealtimeManager.resolveConflict (src/ui/js/notes.js), strategy
-- 'last-write-wins':
--   return remoteValue.updatedAt > localValue.updatedAt
--     ? remoteValue : localValue
-- ============================================================

/-- A property write as compared by the last-write-wins branch: its
logical timestamp, its writer identity and its payload. -/
structure TimedValue where
  updatedAt : Int
  writer : String
  payload : Value
deriving DecidableEq, Repr

/-- The `'last-write-wins'` branch of `resolveConflict`. -/
def lwwResolve (localValue remoteValue : TimedValue) : TimedValue :=
  if remoteValue.updatedAt > localValue.updatedAt then remoteValue else localValue

-- ============================================================
-- validateDocumentName (part_001, hocuspocus server):
--   the name must match /^[a-zA-Z_][a-zA-Z0-9_]*:[a-zA-Z0-9_-]+$/
--   (exactly one colon, since neither character class admits one) or an
--   invalid-format error is thrown; the part before the colon must then
--   be one of the allowed entity types or an invalid-entity-type error
--   is thrown. It is called from onAuthenticate/onConnect, i.e. at
--   session-join time.
-- ============================================================

/-- Split a character list at every colon (`String.prototype.split(':')`
restricted to the one separator the validator uses). -/
def splitOnColon : List Char → List (List Char)
  | [] => [[]]
  | c :: cs =>
    if c = ':' then [] :: splitOnColon cs
    else
      match splitOnColon cs with
      | [] => [[c]]
      | g :: gs => (c :: g) :: gs

/-- First character class of the pattern: `[a-zA-Z_]`. -/
def isTypeStartChar (c : Char) : Bool :=
  c.isAlpha || c = '_'

/-- Second character class of the pattern: `[a-zA-Z0-9_]`. -/
def isTypeChar (c : Char) : Bool :=
  c.isAlphanum || c = '_'

/-- Entity-id character class of the pattern: `[a-zA-Z0-9_-]`. -/
def isIdChar (c : Char) : Bool :=
  c.isAlphanum || c = '_' || c = '-'

/-- The `[a-zA-Z_][a-zA-Z0-9_]*` part before the colon. -/
def typePartOk : List Char → Bool
  | [] => false
  | c :: cs => isTypeStartChar c && cs.all isTypeChar

/-- The `[a-zA-Z0-9_-]+` part after the colon. -/
def idPartOk (l : List Char) : Bool :=
  !l.isEmpty && l.all isIdChar

/-- The errors `validateDocumentName` throws, each carrying the text the
thrown message interpolates. -/
inductive DocNameError
  | invalidFormat (documentName : String)
  | invalidEntityType (entityType : String)
deriving DecidableEq, Repr

/-- The fixed entity-type allow-list of the validator. -/
def allowedEntityTypes : List String :=
  ["deal", "contact", "company", "note", "task", "email"]

/-- `validateDocumentName(documentName)`: pattern check (exactly one
colon, both parts in their character classes), then allow-list check on
the entity type; returns the pair (entityType, entityId) on success. -/
def validateDocumentName (documentName : String) :
    Except DocNameError (String × String) :=
  match splitOnColon documentName.data with
  | [t, i] =>
    if typePartOk t && idPartOk i then
      let entityType := String.mk t
      if allowedEntityTypes.contains entityType then
        Except.ok (entityType, String.mk i)
      else
        Except.error (DocNameError.invalidEntityType entityType)
    else
      Except.error (DocNameError.invalidFormat documentName)
  | _ => Except.error (DocNameError.invalidFormat documentName)

-- ============================================================
-- Helper lemmas about association lists
-- ============================================================

theorem alistGet_alistSet {α : Type} (k k1 : String) (v : α) (l : List (String × α)) :
    alistGet k (alistSet k1 v l) = if k1 = k then some v else alistGet k l := by
  induction l with
  | nil => simp [alistGet, alistSet]
  | cons hd t ih =>
    obtain ⟨k0, v0⟩ := hd
    by_cases h01 : k0 = k1
    · subst h01
      by_cases hk : k0 = k <;> simp [alistGet, alistSet, hk]
    · by_cases hk : k0 = k
      · subst hk
        have hne : ¬ k1 = k0 := fun h => h01 h.symm
        simp [alistGet, alistSet, h01, hne]
      · simp [alistGet, alistSet, h01, hk, ih]

theorem alistGet_eq_none_of_not_mem_keys {α : Type} (k : String)
    (l : List (String × α)) (h : k ∉ l.map Prod.fst) : alistGet k l = none := by
  induction l with
  | nil => rfl
  | cons hd t ih =>
    obtain ⟨k0, v0⟩ := hd
    have hk0 : ¬ k0 = k := by
      rintro rfl
      exact h (by simp)
    have ht : k ∉ t.map Prod.fst := fun m => h (by simp [m])
    simp [alistGet, hk0, ih ht]

theorem alistMem_eq_false_iff {α : Type} (k : String) (l : List (String × α)) :
    alistMem k l = false ↔ alistGet k l = none := by
  cases h : alistGet k l <;> simp [alistMem, h]

-- ============================================================
-- Claim theorems
-- ============================================================

/-- C9: for every pair of objects, `ConflictResolver.resolve` with the
`'prompt'` strategy (which has no UI response wiring in the source)
returns exactly the result of the `'merge'` strategy instead of blocking
indefinitely. -/
theorem C9_prompt_falls_back_to_merge (localObj remote : Obj) :
    ConflictResolver.resolve localObj remote "prompt" =
      ConflictResolver.resolve localObj remote "merge" := rfl

/-- C6 counterexample: two property writes with the same logical
timestamp but different writers resolve to whichever was passed as the
local (first) argument, so the resolved value depends on application
order — the claimed writer-identity tie-break does not exist in
`resolveConflict`'s last-write-wins branch. -/
theorem C6_lww_tiebreak_counterexample :
    lwwResolve ⟨5, "alice", Value.str "A"⟩ ⟨5, "bob", Value.str "B"⟩ =
      ⟨5, "alice", Value.str "A"⟩
    ∧ lwwResolve ⟨5, "bob", Value.str "B"⟩ ⟨5, "alice", Value.str "A"⟩ =
      ⟨5, "bob", Value.str "B"⟩
    ∧ (⟨5, "alice", Value.str "A"⟩ : TimedValue) ≠ ⟨5, "bob", Value.str "B"⟩ :=
  ⟨rfl, rfl, by decide⟩

/-- C6 amended: last-write-wins resolution is order-independent whenever
the two logical timestamps differ (the higher timestamp wins); on equal
timestamps the local (first) argument wins, so there is no
writer-identity tie-break and order-independence fails there. -/
theorem C6_lww_amended (l r : TimedValue) (h : l.updatedAt ≠ r.updatedAt) :
    lwwResolve l r = lwwResolve r l := by
  rcases lt_trichotomy l.updatedAt r.updatedAt with hlt | heq | hgt
  · simp [lwwResolve, hlt, lt_asymm hlt]
  · exact absurd heq h
  · simp [lwwResolve, hgt, lt_asymm hgt]

/-- Witness for C6 amended at timestamps 3 and 7. -/
theorem C6_lww_amended_witness :
    (⟨3, "alice", Value.str "A"⟩ : TimedValue).updatedAt ≠
      (⟨7, "bob", Value.str "B"⟩ : TimedValue).updatedAt
    ∧ lwwResolve ⟨3, "alice", Value.str "A"⟩ ⟨7, "bob", Value.str "B"⟩ =
        lwwResolve ⟨7, "bob", Value.str "B"⟩ ⟨3, "alice", Value.str "A"⟩ :=
  ⟨by decide, C6_lww_amended ⟨3, "alice", Value.str "A"⟩ ⟨7, "bob", Value.str "B"⟩ (by decide)⟩

/-- C8: once the reconnection attempt counter has reached the configured
maximum, `scheduleReconnection` leaves the state unchanged — in
particular it schedules no timeout — and emits the
`reconnectionFailed` notification, so the state is terminal for
automatic retries. -/
theorem C8_retry_budget_terminal (cfg : RTConfig) (s : RTState) (dealId : String)
    (h : cfg.maxReconnectAttempts ≤ s.reconnectAttempts) :
    (scheduleReconnection cfg s dealId).1 = s
    ∧ (scheduleReconnection cfg s dealId).2 = [RTEvent.reconnectionFailed dealId] := by
  simp [scheduleReconnection, h]

/-- Witness for C8 with the default budget of 10 exhausted. -/
theorem C8_retry_budget_terminal_witness :
    ({} : RTConfig).maxReconnectAttempts ≤ (⟨10, []⟩ : RTState).reconnectAttempts
    ∧ (scheduleReconnection {} ⟨10, []⟩ "deal-1").1 = ⟨10, []⟩
    ∧ (scheduleReconnection {} ⟨10, []⟩ "deal-1").2 =
        [RTEvent.reconnectionFailed "deal-1"] :=
  ⟨by decide,
   (C8_retry_budget_terminal {} ⟨10, []⟩ "deal-1" (by decide)).1,
   (C8_retry_budget_terminal {} ⟨10, []⟩ "deal-1" (by decide)).2⟩

/-- C3: while the retry budget is not exhausted, the timeout scheduled
for a deal carries delay `min(reconnectDelay * 2 ^ attempt, 30000)`;
this delay is non-decreasing in the attempt number (so successive
reconnection delays never shrink, up to the 30 s cap); and a successful
provider connect resets the attempt counter to zero. -/
theorem C3_backoff (cfg : RTConfig) :
    (∀ (s : RTState) (dealId : String),
      s.reconnectAttempts < cfg.maxReconnectAttempts →
        alistGet dealId (scheduleReconnection cfg s dealId).1.reconnectTimeouts =
          some (min (cfg.reconnectDelay * 2 ^ s.reconnectAttempts) 30000))
    ∧ (∀ a b : Nat, a ≤ b → backoffDelay cfg a ≤ backoffDelay cfg b)
    ∧ (∀ (s : RTState) (dealId : String),
        (handleProviderConnect s dealId).1.reconnectAttempts = 0) := by
  refine ⟨?_, ?_, ?_⟩
  · intro s dealId h
    simp [scheduleReconnection, not_le.mpr h, alistGet_alistSet, backoffDelay]
  · intro a b hab
    exact min_le_min (Nat.mul_le_mul_left _ (Nat.pow_le_pow_right (by norm_num) hab)) le_rfl
  · intro s dealId
    rfl

/-- Witness for C3 with the default configuration, one prior attempt and
a fresh manager state. -/
theorem C3_backoff_witness :
    ((⟨1, []⟩ : RTState).reconnectAttempts < ({} : RTConfig).maxReconnectAttempts
      ∧ alistGet "deal-1" (scheduleReconnection {} ⟨1, []⟩ "deal-1").1.reconnectTimeouts =
          some (min (({} : RTConfig).reconnectDelay * 2 ^ 1) 30000))
    ∧ ((2 : Nat) ≤ 6 ∧ backoffDelay {} 2 ≤ backoffDelay {} 6)
    ∧ (handleProviderConnect ⟨7, [("deal-1", 4000)]⟩ "deal-1").1.reconnectAttempts = 0 :=
  ⟨⟨by decide, (C3_backoff {}).1 ⟨1, []⟩ "deal-1" (by decide)⟩,
   ⟨by decide, (C3_backoff {}).2.1 2 6 (by decide)⟩,
   (C3_backoff {}).2.2 ⟨7, [("deal-1", 4000)]⟩ "deal-1"⟩

/-- C10: calling `joinDeal` for a deal that is already joined returns
the existing Y.Doc and leaves the whole manager state — documents,
providers, persistence and awareness maps — unchanged, so joining an
already-joined session is a no-op. -/
theorem C10_joinDeal_idempotent (ns : String) (s : ManagerState) (dealId : String)
    (doc : YDocModel) (h : alistGet dealId s.documents = some doc) :
    joinDeal ns s dealId = (s, doc) := by
  simp [joinDeal, h]

/-- Witness for C10 on a manager that has already joined deal 42. -/
theorem C10_joinDeal_idempotent_witness :
    alistGet "42"
      ({ documents := [("42", ⟨"crm:deal:42"⟩)], providers := [("42", "crm:deal:42")],
         persistence := [("42", "crm:deal:42")],
         awareness := [("42", "crm:deal:42")] } : ManagerState).documents =
        some ⟨"crm:deal:42"⟩
    ∧ joinDeal "crm"
        { documents := [("42", ⟨"crm:deal:42"⟩)], providers := [("42", "crm:deal:42")],
          persistence := [("42", "crm:deal:42")],
          awareness := [("42", "crm:deal:42")] } "42" =
        ({ documents := [("42", ⟨"crm:deal:42"⟩)], providers := [("42", "crm:deal:42")],
           persistence := [("42", "crm:deal:42")],
           awareness := [("42", "crm:deal:42")] }, ⟨"crm:deal:42"⟩) :=
  ⟨rfl,
   C10_joinDeal_idempotent "crm"
     { documents := [("42", ⟨"crm:deal:42"⟩)], providers := [("42", "crm:deal:42")],
       persistence := [("42", "crm:deal:42")],
       awareness := [("42", "crm:deal:42")] } "42" ⟨"crm:deal:42"⟩ rfl⟩

/-- C2 counterexample: a deal created offline (placeholder id
`offline_1`) and a subsequent update to it sit in the queue; against a
record store on which every replay fails — so the create never
succeeds — one drain pass still replays the update, carrying the
placeholder identifier unchanged. The update is therefore not deferred
until the create has succeeded, and no server-assigned identifier is
ever substituted, refuting the claim. -/
theorem C2_queue_causal_counterexample :
    (drainQueue (fun _ => false)
        [⟨"queue_1", OpKind.create, "deals",
          [("title", Value.str "Acme"), ("amount", Value.num 100)], 1, 0⟩,
         ⟨"queue_2", OpKind.update, "deals",
          [("id", Value.str "offline_1"), ("amount", Value.num 150)], 2, 0⟩]).attempts =
      [(OpKind.create, "deals", [("title", Value.str "Acme"), ("amount", Value.num 100)]),
       (OpKind.update, "deals", [("id", Value.str "offline_1"), ("amount", Value.num 150)])]
    ∧ alistGet "id" [("id", Value.str "offline_1"), ("amount", Value.num 150)] =
        some (Value.str "offline_1") :=
  ⟨rfl, rfl⟩

/-- C2 amended: one `processOfflineQueue` pass attempts every queued
operation exactly once, in FIFO insertion order, with its enqueued
payload unchanged — so an update enqueued after its entity's create is
attempted after that create is attempted, but its replay is not gated on
the create's success and no identifier substitution takes place. -/
theorem C2_drain_fifo_amended (applyFn : QueueItem → Bool) (q : List QueueItem) :
    (drainQueue applyFn q).attempts =
      q.map (fun it => (it.operation, it.entityType, it.data)) := by
  induction q with
  | nil => rfl
  | cons item rest ih =>
    unfold drainQueue
    by_cases h : applyFn item
    · simp [h, ih]
    · simp [h]
      split_ifs <;> simp [ih]

/-- The pass never completes while every replay is absorbed as a
network-classified failure: each iteration removes the visited copy and
appends a fresh one, so the iterator always has a pending item,
whatever the fuel. -/
theorem runPass_requeued_pending (applyFn : QueueItem → ReplayOutcome)
    (h : ∀ it, applyFn it = ReplayOutcome.requeued) :
    ∀ (n : Nat) (s : PassState), s.idx < s.arr.length →
      (runPass applyFn n s).idx < (runPass applyFn n s).arr.length := by
  intro n
  induction n with
  | zero => intro s hs; simpa [runPass] using hs
  | succ m ih =>
    intro s hs
    rw [runPass, if_pos hs]
    apply ih
    have hget := List.getElem?_eq_getElem hs
    simp [passStep, hget, h]
    omega

/-- C5 counterexample: a queued update whose replay keeps failing with a
network-classified error (e.g. the store unreachable, or any `getDeal`
pre-read failure, whose `Failed to fetch deal:` message always passes
`isNetworkError`). After the first failed replay the claim requires the
operation kept queued with `retryCount` 1 — instead the original is
removed as processed and the queue holds only a fresh copy with
`retryCount` 0; after four loop iterations the operation has been
attempted four times, every copy still at `retryCount` 0, never
dropped: it is retried forever, and the ceiling never applies. -/
theorem C5_requeue_counterexample :
    (runPass (fun _ => ReplayOutcome.requeued) 1
      (initPass [⟨"queue_1", OpKind.update, "deals",
        [("id", Value.str "offline_1"), ("amount", Value.num 150)], 1, 0⟩] 100)).processed =
      ["queue_1"]
    ∧ passRemaining (runPass (fun _ => ReplayOutcome.requeued) 1
      (initPass [⟨"queue_1", OpKind.update, "deals",
        [("id", Value.str "offline_1"), ("amount", Value.num 150)], 1, 0⟩] 100)) =
      [⟨"queue_100", OpKind.update, "deals",
        [("id", Value.str "offline_1"), ("amount", Value.num 150)], 100, 0⟩]
    ∧ (runPass (fun _ => ReplayOutcome.requeued) 4
      (initPass [⟨"queue_1", OpKind.update, "deals",
        [("id", Value.str "offline_1"), ("amount", Value.num 150)], 1, 0⟩] 100)).attempts.length =
      4
    ∧ passRemaining (runPass (fun _ => ReplayOutcome.requeued) 4
      (initPass [⟨"queue_1", OpKind.update, "deals",
        [("id", Value.str "offline_1"), ("amount", Value.num 150)], 1, 0⟩] 100)) =
      [⟨"queue_103", OpKind.update, "deals",
        [("id", Value.str "offline_1"), ("amount", Value.num 150)], 103, 0⟩] :=
  ⟨rfl, rfl, rfl, rfl⟩

/-- C5 amended: in a drain pass, a successful replay removes the
operation (marks it processed, drops nothing); a replay failure the CRUD
wrapper classifies as a network error also removes the original but
appends a fresh copy with `retryCount` 0 to the live queue — under a
persistently failing store the pass therefore never completes and the
operation is retried without bound, the retry ceiling never applying;
only a replay failure that throws out of `processOfflineItem`
increments the operation's `retryCount` in place, keeps it while the
new count is below the ceiling 3, and permanently drops it with a
surfaced error once the new count reaches 3 (not: exceeds 3). -/
theorem C5_pass_behavior_amended (applyFn : QueueItem → ReplayOutcome) (s : PassState)
    (item : QueueItem) (hitem : s.arr[s.idx]? = some item) :
    (applyFn item = ReplayOutcome.success →
        (passStep applyFn s).processed = s.processed ++ [item.id]
      ∧ (passStep applyFn s).arr = s.arr
      ∧ (passStep applyFn s).dropped = s.dropped)
    ∧ (applyFn item = ReplayOutcome.requeued →
        (passStep applyFn s).processed = s.processed ++ [item.id]
      ∧ (passStep applyFn s).arr = s.arr ++
          [{ item with id := "queue_" ++ toString s.now, timestamp := s.now, retries := 0 }]
      ∧ (passStep applyFn s).dropped = s.dropped)
    ∧ (applyFn item = ReplayOutcome.thrown → item.retries + 1 < retryAttempts →
        (passStep applyFn s).arr = s.arr.set s.idx { item with retries := item.retries + 1 }
      ∧ (passStep applyFn s).processed = s.processed
      ∧ (passStep applyFn s).dropped = s.dropped)
    ∧ (applyFn item = ReplayOutcome.thrown → retryAttempts ≤ item.retries + 1 →
        (passStep applyFn s).processed = s.processed ++ [item.id]
      ∧ (passStep applyFn s).dropped = s.dropped ++ [{ item with retries := item.retries + 1 }])
    ∧ (∀ (n : Nat) (q : List QueueItem) (tick : Nat),
        (∀ it, applyFn it = ReplayOutcome.requeued) → q ≠ [] →
        (runPass applyFn n (initPass q tick)).idx <
          (runPass applyFn n (initPass q tick)).arr.length) := by
  refine ⟨?_, ?_, ?_, ?_, ?_⟩
  · intro h
    refine ⟨?_, ?_, ?_⟩ <;> simp [passStep, hitem, h]
  · intro h
    refine ⟨?_, ?_, ?_⟩ <;> simp [passStep, hitem, h]
  · intro h hlt
    refine ⟨?_, ?_, ?_⟩ <;> simp [passStep, hitem, h, not_le.mpr hlt]
  · intro h hle
    refine ⟨?_, ?_⟩ <;> simp [passStep, hitem, h, hle]
  · intro n q tick hall hq
    apply runPass_requeued_pending applyFn hall
    simpa [initPass] using List.length_pos.mpr hq

/-- Witness for C5 amended: the network-absorbed branch on a concrete
queued update, and the ten-iteration pass that still has a pending
item. -/
theorem C5_pass_behavior_amended_witness :
    ((initPass [⟨"queue_1", OpKind.update, "deals",
        [("id", Value.str "offline_1"), ("amount", Value.num 150)], 1, 0⟩] 100).arr[
      (initPass [⟨"queue_1", OpKind.update, "deals",
        [("id", Value.str "offline_1"), ("amount", Value.num 150)], 1, 0⟩] 100).idx]? =
      some ⟨"queue_1", OpKind.update, "deals",
        [("id", Value.str "offline_1"), ("amount", Value.num 150)], 1, 0⟩)
    ∧ (passStep (fun _ => ReplayOutcome.requeued)
        (initPass [⟨"queue_1", OpKind.update, "deals",
          [("id", Value.str "offline_1"), ("amount", Value.num 150)], 1, 0⟩] 100)).arr =
      [⟨"queue_1", OpKind.update, "deals",
        [("id", Value.str "offline_1"), ("amount", Value.num 150)], 1, 0⟩,
       ⟨"queue_100", OpKind.update, "deals",
        [("id", Value.str "offline_1"), ("amount", Value.num 150)], 100, 0⟩]
    ∧ (runPass (fun _ => ReplayOutcome.requeued) 10
        (initPass [⟨"queue_1", OpKind.update, "deals",
          [("id", Value.str "offline_1"), ("amount", Value.num 150)], 1, 0⟩] 100)).idx <
      (runPass (fun _ => ReplayOutcome.requeued) 10
        (initPass [⟨"queue_1", OpKind.update, "deals",
          [("id", Value.str "offline_1"), ("amount", Value.num 150)], 1, 0⟩] 100)).arr.length :=
  ⟨rfl,
   by
    have h := ((C5_pass_behavior_amended (fun _ => ReplayOutcome.requeued)
        (initPass [⟨"queue_1", OpKind.update, "deals",
          [("id", Value.str "offline_1"), ("amount", Value.num 150)], 1, 0⟩] 100)
        ⟨"queue_1", OpKind.update, "deals",
          [("id", Value.str "offline_1"), ("amount", Value.num 150)], 1, 0⟩ rfl).2.1 rfl).2.1
    exact h.trans (by decide),
   (C5_pass_behavior_amended (fun _ => ReplayOutcome.requeued)
      (initPass [⟨"queue_1", OpKind.update, "deals",
        [("id", Value.str "offline_1"), ("amount", Value.num 150)], 1, 0⟩] 100)
      ⟨"queue_1", OpKind.update, "deals",
        [("id", Value.str "offline_1"), ("amount", Value.num 150)], 1, 0⟩ rfl).2.2.2.2
      10 [⟨"queue_1", OpKind.update, "deals",
        [("id", Value.str "offline_1"), ("amount", Value.num 150)], 1, 0⟩] 100
      (fun _ => rfl) (by decide)⟩

theorem hasSubstr_append_right (sub l1 l2 : List Char) (h : hasSubstr sub l2 = true) :
    hasSubstr sub (l1 ++ l2) = true := by
  induction l1 with
  | nil => simpa using h
  | cons c cs ih => simp [hasSubstr, ih]

/-- C4 counterexample: the 30-second abort signal of `makeRequest`
rejects with a `TimeoutError` whose message is `signal timed out`;
`makeRequest` converts it to a failed response, `createDeal` wraps it in
an `APIError`, and `isNetworkError` does not recognize it (the name is
`APIError` and the message contains neither `fetch` nor `network`), so
the timeout — a network-layer failure per the claim — is rethrown to the
caller and nothing is queued. -/
theorem C4_timeout_counterexample :
    (createDeal [("title", Value.str "Acme")]
        ⟨false, [], "signal timed out", 0⟩ [] 1700).1 =
      Except.error ⟨"APIError", "Failed to create deal: signal timed out", 0⟩
    ∧ (createDeal [("title", Value.str "Acme")]
        ⟨false, [], "signal timed out", 0⟩ [] 1700).2 = [] :=
  ⟨rfl, rfl⟩

/-- C4 amended: a create, update or delete whose request fails with an
error message containing the substring `fetch` or `network` (the form
the browser gives fetch-level DNS and connection failures) is not
surfaced to the caller: the wrapped APIError passes `isNetworkError`,
the operation is appended to the offline queue, and an optimistic local
value is returned. Failures not matching that predicate — such as the
abort-signal timeout — are rethrown instead. -/
theorem C4_network_error_queued_amended (dealData : Obj) (id : String)
    (resp : ApiResponse) (confl : Except JsError Obj) (q : List QueueItem) (now : Nat)
    (hok : resp.ok = false) (h409 : resp.status ≠ 409)
    (hnet : hasSubstr "fetch".data resp.error.data = true ∨
            hasSubstr "network".data resp.error.data = true) :
    ((createDeal dealData resp q now).1.isOk = true
      ∧ (createDeal dealData resp q now).2 =
          q ++ [queueOfflineOperation OpKind.create "deals" dealData now])
    ∧ ((updateDeal id dealData resp confl q now).1.isOk = true
      ∧ (updateDeal id dealData resp confl q now).2 =
          q ++ [queueOfflineOperation OpKind.update "deals"
                  (objAssign [("id", Value.str id)] dealData) now])
    ∧ ((deleteDeal id resp q now).1.isOk = true
      ∧ (deleteDeal id resp q now).2 =
          q ++ [queueOfflineOperation OpKind.delete "deals" [("id", Value.str id)] now]) := by
  have hwrap : ∀ p : String, isNetworkError ⟨"APIError", p ++ resp.error, resp.status⟩ = true := by
    intro p
    rcases hnet with hf | hn
    · simp [isNetworkError, String.data_append, hasSubstr_append_right _ p.data _ hf]
    · simp [isNetworkError, String.data_append, hasSubstr_append_right _ p.data _ hn]
  refine ⟨?_, ?_, ?_⟩
  · constructor <;> simp [createDeal, hok, hwrap, Except.isOk, Except.toBool]
  · constructor <;> simp [updateDeal, hok, h409, hwrap, Except.isOk, Except.toBool]
  · constructor <;> simp [deleteDeal, hok, hwrap, Except.isOk, Except.toBool]

/-- Witness for C4 amended: a Chrome-style `Failed to fetch` connection
failure on all three operations. -/
theorem C4_network_error_queued_amended_witness :
    ((⟨false, [], "Failed to fetch", 0⟩ : ApiResponse).ok = false)
    ∧ ((⟨false, [], "Failed to fetch", 0⟩ : ApiResponse).status ≠ 409)
    ∧ (hasSubstr "fetch".data ("Failed to fetch" : String).data = true)
    ∧ (createDeal [("title", Value.str "Acme")] ⟨false, [], "Failed to fetch", 0⟩ [] 1700).1.isOk =
        true
    ∧ (createDeal [("title", Value.str "Acme")] ⟨false, [], "Failed to fetch", 0⟩ [] 1700).2 =
        [] ++ [queueOfflineOperation OpKind.create "deals" [("title", Value.str "Acme")] 1700] :=
  ⟨rfl, by decide, rfl,
   (C4_network_error_queued_amended [("title", Value.str "Acme")] "7"
      ⟨false, [], "Failed to fetch", 0⟩ (Except.ok []) [] 1700 rfl (by decide)
      (Or.inl rfl)).1.1,
   (C4_network_error_queued_amended [("title", Value.str "Acme")] "7"
      ⟨false, [], "Failed to fetch", 0⟩ (Except.ok []) [] 1700 rfl (by decide)
      (Or.inl rfl)).1.2⟩

theorem splitOnColon_ne_nil (l : List Char) : splitOnColon l ≠ [] := by
  cases l with
  | nil => simp [splitOnColon]
  | cons c cs =>
    unfold splitOnColon
    by_cases h : c = ':'
    · simp [h]
    · simp only [h, if_false]
      cases splitOnColon cs <;> simp

theorem splitOnColon_no_colon (l : List Char) (h : ':' ∉ l) : splitOnColon l = [l] := by
  induction l with
  | nil => rfl
  | cons c cs ih =>
    have hc : ¬ c = ':' := by rintro rfl; exact h (List.mem_cons_self _ _)
    have hcs : ':' ∉ cs := fun m => h (List.mem_cons_of_mem _ m)
    simp [splitOnColon, hc, ih hcs]

theorem splitOnColon_append (t rest : List Char) (h : ':' ∉ t) :
    splitOnColon (t ++ ':' :: rest) = t :: splitOnColon rest := by
  induction t with
  | nil => simp [splitOnColon]
  | cons c cs ih =>
    have hc : ¬ c = ':' := by rintro rfl; exact h (List.mem_cons_self _ _)
    have hcs : ':' ∉ cs := fun m => h (List.mem_cons_of_mem _ m)
    have hstep : splitOnColon (cs.append (':' :: rest)) = cs :: splitOnColon rest := ih hcs
    simp only [List.cons_append, splitOnColon, hc, if_false, hstep]

theorem no_colon_of_idPartOk (i : List Char) (h : idPartOk i = true) : ':' ∉ i := by
  intro hm
  have hall := List.all_eq_true.mp ((Bool.and_eq_true _ _).mp h).2
  exact absurd (hall ':' hm) (by decide)

theorem no_colon_of_typePartOk (t : List Char) (h : typePartOk t = true) : ':' ∉ t := by
  intro hm
  cases t with
  | nil => simp at hm
  | cons c cs =>
    rw [typePartOk] at h
    have h2 := (Bool.and_eq_true _ _).mp h
    rcases List.mem_cons.mp hm with hc | hcs
    · cases hc
      exact absurd h2.1 (by decide)
    · have hall := List.all_eq_true.mp h2.2
      exact absurd (hall ':' hcs) (by decide)

/-- C7 counterexample: the three-segment identifier `crm:deal:123` —
exactly the `namespace:entityType:entityId` form the claim describes and
the client's `joinDeal` constructs, with the allow-listed type `deal` —
is rejected by `validateDocumentName` as an invalid format, because the
validator's pattern admits exactly one colon. -/
theorem C7_three_segment_counterexample :
    validateDocumentName "crm:deal:123" =
      Except.error (DocNameError.invalidFormat "crm:deal:123")
    ∧ "deal" ∈ allowedEntityTypes := ⟨rfl, by decide⟩

/-- C7 amended: document-name validation accepts exactly the
two-segment identifiers `entityType:entityId` whose type matches
`[a-zA-Z_][a-zA-Z0-9_]*` and is on the allow-list and whose id matches
`[a-zA-Z0-9_-]+`, returning the parsed pair; a two-segment name with a
well-formed but disallowed entity type is rejected with a descriptive
invalid-entity-type error; a name without a colon, a two-segment name
with a malformed part, and every three-segment
`namespace:entityType:entityId` identifier are rejected with a
descriptive invalid-format error — never silently accepted. -/
theorem C7_validation_amended :
    (∀ t : String, t ∈ allowedEntityTypes → ∀ i : List Char, idPartOk i = true →
      validateDocumentName (t ++ ":" ++ String.mk i) = Except.ok (t, String.mk i))
    ∧ (∀ (t : String) (i : List Char), typePartOk t.data = true → idPartOk i = true →
        allowedEntityTypes.contains t = false →
        validateDocumentName (t ++ ":" ++ String.mk i) =
          Except.error (DocNameError.invalidEntityType t))
    ∧ (∀ name : String, ':' ∉ name.data →
        validateDocumentName name = Except.error (DocNameError.invalidFormat name))
    ∧ (∀ t i : List Char, ':' ∉ t → ':' ∉ i → (typePartOk t && idPartOk i) = false →
        validateDocumentName (String.mk t ++ ":" ++ String.mk i) =
          Except.error (DocNameError.invalidFormat (String.mk t ++ ":" ++ String.mk i)))
    ∧ (∀ ns t i : String, ':' ∉ ns.data → ':' ∉ t.data →
        validateDocumentName (ns ++ ":" ++ t ++ ":" ++ i) =
          Except.error (DocNameError.invalidFormat (ns ++ ":" ++ t ++ ":" ++ i))) := by
  refine ⟨?_, ?_, ?_, ?_, ?_⟩
  · intro t ht i hi
    have hno : ':' ∉ i := no_colon_of_idPartOk i hi
    have htp : typePartOk t.data = true := by fin_cases ht <;> decide
    have htc : ':' ∉ t.data := no_colon_of_typePartOk t.data htp
    have hdata : (t ++ ":" ++ String.mk i).data = t.data ++ ':' :: i := by
      simp [String.data_append]
    unfold validateDocumentName
    rw [hdata, splitOnColon_append _ _ htc, splitOnColon_no_colon i hno]
    have heta : (⟨t.data⟩ : String) = t := rfl
    simp [htp, hi, heta, ht]
  · intro t i htp hi hcontains
    have hno : ':' ∉ i := no_colon_of_idPartOk i hi
    have htc : ':' ∉ t.data := no_colon_of_typePartOk t.data htp
    have hmem : t ∉ allowedEntityTypes := by
      intro hm
      have h1 : allowedEntityTypes.elem t = false := hcontains
      rw [(List.elem_iff).mpr hm] at h1
      exact Bool.true_eq_false.mp h1
    have hdata : (t ++ ":" ++ String.mk i).data = t.data ++ ':' :: i := by
      simp [String.data_append]
    unfold validateDocumentName
    rw [hdata, splitOnColon_append _ _ htc, splitOnColon_no_colon i hno]
    have heta : (⟨t.data⟩ : String) = t := rfl
    simp [htp, hi, heta, hmem]
  · intro name hname
    unfold validateDocumentName
    rw [splitOnColon_no_colon name.data hname]
  · intro t i ht hi hcond
    have hdata : (String.mk t ++ ":" ++ String.mk i).data = t ++ ':' :: i := by
      simp [String.data_append]
    unfold validateDocumentName
    rw [hdata, splitOnColon_append _ _ ht, splitOnColon_no_colon i hi]
    simp [hcond]
  · intro ns t i hns hts
    have hdata : (ns ++ ":" ++ t ++ ":" ++ i).data =
        ns.data ++ ':' :: (t.data ++ ':' :: i.data) := by
      simp [String.data_append]
    unfold validateDocumentName
    rw [hdata, splitOnColon_append _ _ hns, splitOnColon_append _ _ hts]
    cases h : splitOnColon i.data with
    | nil => exact absurd h (splitOnColon_ne_nil _)
    | cons g gs => rfl

/-- Witness for C7 amended: `deal:123` accepted and parsed; the
well-formed but disallowed `widget:99` rejected as an invalid entity
type; the colon-free `nocolon` and the empty-id `deal:` rejected as
invalid formats; the client-constructed `crm:deal:123` rejected. -/
theorem C7_validation_amended_witness :
    ("deal" ∈ allowedEntityTypes
      ∧ idPartOk "123".data = true
      ∧ validateDocumentName ("deal" ++ ":" ++ String.mk "123".data) =
          Except.ok ("deal", String.mk "123".data))
    ∧ (typePartOk ("widget" : String).data = true
      ∧ idPartOk "99".data = true
      ∧ allowedEntityTypes.contains "widget" = false
      ∧ validateDocumentName ("widget" ++ ":" ++ String.mk "99".data) =
          Except.error (DocNameError.invalidEntityType "widget"))
    ∧ (':' ∉ ("nocolon" : String).data
      ∧ validateDocumentName "nocolon" =
          Except.error (DocNameError.invalidFormat "nocolon"))
    ∧ (':' ∉ ("deal" : String).data.append []
      ∧ (typePartOk "deal".data && idPartOk []) = false
      ∧ validateDocumentName (String.mk "deal".data ++ ":" ++ String.mk []) =
          Except.error
            (DocNameError.invalidFormat (String.mk "deal".data ++ ":" ++ String.mk [])))
    ∧ (':' ∉ ("crm" : String).data
      ∧ ':' ∉ ("deal" : String).data
      ∧ validateDocumentName ("crm" ++ ":" ++ "deal" ++ ":" ++ "123") =
          Except.error (DocNameError.invalidFormat ("crm" ++ ":" ++ "deal" ++ ":" ++ "123"))) :=
  ⟨⟨by decide, by decide,
    C7_validation_amended.1 "deal" (by decide) "123".data (by decide)⟩,
   ⟨by decide, by decide, by decide,
    C7_validation_amended.2.1 "widget" "99".data (by decide) (by decide) (by decide)⟩,
   ⟨by decide,
    C7_validation_amended.2.2.1 "nocolon" (by decide)⟩,
   ⟨by decide, by decide,
    C7_validation_amended.2.2.2.1 "deal".data [] (by decide) (by decide) (by decide)⟩,
   ⟨by decide, by decide,
    C7_validation_amended.2.2.2.2 "crm" "deal" "123" (by decide) (by decide)⟩⟩

theorem mergeStep_foldl_get (remote : Obj) (k : String) (localObj : Obj) :
    keysNodup localObj → ∀ acc : Obj,
    alistGet k (List.foldl (ConflictResolver.mergeStep remote) acc localObj) =
      if alistMem k localObj && !(alistMem k remote) && !(startsWithUnderscore k) then
        alistGet k localObj
      else alistGet k acc := by
  induction localObj with
  | nil => intro _ acc; simp [alistMem, alistGet]
  | cons hd t ih =>
    intro hnd acc
    obtain ⟨k0, v0⟩ := hd
    have hnd0 : (((k0, v0) :: t).map Prod.fst).Nodup := hnd
    rw [List.map_cons] at hnd0
    have hnd' := List.nodup_cons.mp hnd0
    have hndt : keysNodup t := hnd'.2
    rw [List.foldl_cons, ih hndt (ConflictResolver.mergeStep remote acc (k0, v0))]
    by_cases hk : k0 = k
    · subst hk
      have hgt : alistGet k0 t = none := alistGet_eq_none_of_not_mem_keys _ _ hnd'.1
      cases hmr : alistGet k0 remote with
      | some w => simp [ConflictResolver.mergeStep, alistMem, alistGet, hgt, hmr]
      | none =>
        cases hus : startsWithUnderscore k0 with
        | true => simp [ConflictResolver.mergeStep, alistMem, alistGet, hgt, hmr, hus]
        | false =>
          simp [ConflictResolver.mergeStep, alistMem, alistGet, hgt, hmr, hus,
            alistGet_alistSet]
    · have hgetcons : alistGet k ((k0, v0) :: t) = alistGet k t := by
        simp [alistGet, hk]
      have hmemcons : alistMem k ((k0, v0) :: t) = alistMem k t := by
        simp [alistMem, hgetcons]
      have hstep : alistGet k (ConflictResolver.mergeStep remote acc (k0, v0)) =
          alistGet k acc := by
        unfold ConflictResolver.mergeStep
        split_ifs with hcond
        · simp [alistGet_alistSet, hk]
        · rfl
      rw [hmemcons, hgetcons, hstep]

/-- C1 counterexample: the claim's resolved value (remote with *every*
local-only field added, `specMergeResolved`) differs from what
`ConflictResolver.merge` produces as soon as a local-only field starts
with an underscore — such as the `_offline` marker the engine itself
attaches to optimistic local values: merge silently drops it. -/
theorem C1_merge_underscore_counterexample :
    ConflictResolver.resolve [("_offline", Value.boolean true)] [] "merge" =
      Except.ok ⟨[], "merged"⟩
    ∧ specMergeResolved [("_offline", Value.boolean true)] [] =
        [("_offline", Value.boolean true)]
    ∧ ([] : Obj) ≠ [("_offline", Value.boolean true)] :=
  ⟨rfl, rfl, by decide⟩

/-- C1 amended: for objects with distinct keys, the `'merge'` strategy
resolves field-wise as follows — a field present in remote keeps
remote's value (remote's conflicting fields win), a field present only
in local survives unless its name starts with an underscore, and
underscore-prefixed local-only fields are dropped; the source tag is
`'merged'`, and the spec's concrete scenario
(local status won + notes x, remote status lost) resolves to
status lost + notes x. -/
theorem C1_merge_amended (localObj remote : Obj) (hl : keysNodup localObj) :
    (∀ k, alistGet k (ConflictResolver.merge localObj remote).resolved =
        if alistMem k remote then alistGet k remote
        else if alistMem k localObj && !(startsWithUnderscore k) then alistGet k localObj
        else none)
    ∧ (ConflictResolver.merge localObj remote).source = "merged"
    ∧ ConflictResolver.resolve
        [("status", Value.str "won"), ("notes", Value.str "x")]
        [("status", Value.str "lost")] "merge" =
      Except.ok ⟨[("status", Value.str "lost"), ("notes", Value.str "x")], "merged"⟩ := by
  refine ⟨?_, rfl, rfl⟩
  intro k
  have h := mergeStep_foldl_get remote k localObj hl remote
  rw [show (ConflictResolver.merge localObj remote).resolved =
      List.foldl (ConflictResolver.mergeStep remote) remote localObj from rfl, h]
  by_cases hmr : alistMem k remote
  · simp [hmr]
  · have hnone : alistGet k remote = none :=
      (alistMem_eq_false_iff _ _).mp (by simpa using hmr)
    by_cases hml : alistMem k localObj
    · by_cases hus : startsWithUnderscore k
      · simp [hmr, hml, hus, hnone]
      · simp [hmr, hml, hus, hnone]
    · simp [hmr, hml, hnone]

/-- Witness for C1 amended: the non-conflicting field `notes` survives
the merge of the spec's scenario extended with an underscore field. -/
theorem C1_merge_amended_witness :
    keysNodup [("notes", Value.str "x"), ("_tmp", Value.str "y")]
    ∧ alistGet "notes"
        (ConflictResolver.merge [("notes", Value.str "x"), ("_tmp", Value.str "y")]
          [("status", Value.str "lost")]).resolved = some (Value.str "x") :=
  ⟨by decide, by
    have h := (C1_merge_amended [("notes", Value.str "x"), ("_tmp", Value.str "y")]
        [("status", Value.str "lost")] (by decide)).1 "notes"
    exact h.trans (by decide)⟩
